import Mathlib

/-!
Verification development for the coupon validation microservice.

The Go source is shallowly embedded here:
* `float64` money amounts are modelled as `ℚ` (exact arithmetic);
* `time.Time` instants are modelled as `ℤ` (e.g. nanoseconds since epoch),
  with `t.Before u` becoming `t < u` and `t.After u` becoming `u < t`;
* Go `int` counters are modelled as `ℤ`;
* the fallible I/O steps of the usage transaction (BeginTx, GetAndLockUsage,
  IncrementUsage, Commit) and the request-context cancellation of the
  discount-evaluation phase are modelled by an explicit per-call environment
  `CallEnv` saying which of them succeed;
* the serializable transaction with `SELECT ... FOR UPDATE` is modelled by
  letting each committed call in a trace read the stored `usageCount` left by
  the previous committed call (the row lock plus serializable isolation
  sequentialize the transactions on one (couponId, userId) key).
-/

namespace CouponService

/-- CartItem of package `internal/models` (src/unnamed/part_002). -/
structure CartItem where
  id : String
  category : String
  price : ℚ
  qty : ℤ
  deriving Repr, DecidableEq

/-- CouponMeta of package `internal/models`: the Coupon fields ValidateCoupon reads
(src/internal/models/coupon.go) flattened with the two applicability lists. -/
structure CouponMeta where
  metaId : ℤ
  couponCode : String
  expiryDate : ℤ
  usageType : String
  minOrderValue : ℚ
  validFrom : Option ℤ
  validTo : Option ℤ
  discountType : String
  discountValue : ℚ
  maxUsagePerUser : ℤ
  targetType : String
  applicableItems : List String
  applicableCategories : List String
  deriving Repr, DecidableEq

/-- ValidationRequest of package `internal/models` (src/internal/models/validation.go). -/
structure ValidationRequest where
  userId : String
  couponCode : String
  cartItems : List CartItem
  orderTotal : ℚ
  deriving Repr, DecidableEq

/-- ValidationResponse of package `internal/models` (src/internal/models/validation.go). -/
structure ValidationResponse where
  isValid : Bool
  discount : ℚ
  message : String
  deriving Repr, DecidableEq

/-- Per-call environment for the fallible steps of `ValidateCoupon`:
whether the request context was cancelled during the discount-evaluation
phase, and whether each of BeginTx, GetAndLockUsage, IncrementUsage and
Commit succeeds on this call. -/
structure CallEnv where
  evalCancelled : Bool
  beginOk : Bool
  lockOk : Bool
  incrementOk : Bool
  commitOk : Bool
  deriving Repr, DecidableEq

/-- Worker-count computation of ValidateCoupon
(`workerCount := 4; if len > 0 && len < workerCount { workerCount = len;
if workerCount == 0 { workerCount = 1 } }`), embedded literally. -/
def workerCount (n : ℕ) : ℕ :=
  let wc := 4
  if 0 < n ∧ n < wc then
    (if n = 0 then 1 else n)
  else wc

/-- Item-applicability check of the discount worker body:
applies when both restriction sets are empty, or the item id is in the
applicable-items set, or the category is in the applicable-categories set. -/
def itemApplies (m : CouponMeta) (it : CartItem) : Bool :=
  (m.applicableItems.isEmpty && m.applicableCategories.isEmpty)
    || m.applicableItems.contains it.id
    || m.applicableCategories.contains it.category

/-- Per-item discount contribution computed by a worker: for an applicable
item of an inventory/percentage coupon it is `qty * price * (value/100)`;
every other case contributes 0 (flat inventory discounts are sent as 0 by the
worker and applied once at aggregation). -/
def itemDiscount (m : CouponMeta) (it : CartItem) : ℚ :=
  if itemApplies m it ∧ m.targetType = "inventory" then
    (if m.discountType = "percentage" then
       (it.qty : ℚ) * it.price * (m.discountValue / 100)
     else 0)
  else 0

/-- The collector's sum of worker outputs, `totalItemsDiscount` (addition on
`ℚ` is commutative, so the nondeterministic collection order is irrelevant). -/
def totalItemsDiscount (m : CouponMeta) (items : List CartItem) : ℚ :=
  (items.map (itemDiscount m)).sum

/-- Aggregation of the final discount: `chargesDiscount` for charges-target
coupons (percentage of order total, or flat), the flat value once per order
for inventory/flat coupons, otherwise the summed per-item discounts. -/
def finalDiscount (m : CouponMeta) (itemsTotal orderTotal : ℚ) : ℚ :=
  let chargesDiscount :=
    if m.targetType = "charges" then
      (if m.discountType = "percentage" then orderTotal * (m.discountValue / 100)
       else m.discountValue)
    else 0
  let flatInventoryDiscount :=
    if m.targetType = "inventory" ∧ m.discountType = "flat" then m.discountValue
    else 0
  if m.targetType = "charges" then chargesDiscount
  else if m.targetType = "inventory" ∧ m.discountType = "flat" then
    flatInventoryDiscount
  else itemsTotal

/-- Outcome of the usage-consumption transaction section. -/
inductive TxOutcome where
  | errBegin
  | errLock
  | alreadyUsed
  | limitReached
  | errIncrement
  | errCommit
  | accepted
  deriving Repr, DecidableEq

/-- Fate of the usage transaction: the deferred `tx.Rollback()` fires on every
exit path reached after `BeginTx` succeeds and before `committed = true`,
which is set only after a successful `tx.Commit()`. -/
inductive TxFate where
  | neverOpened
  | rolledBack
  | committed
  deriving Repr, DecidableEq

/-- The usage-consumption section of ValidateCoupon: BeginTx, GetAndLockUsage
(reading `count`), the one_time gate, the maxUsagePerUser gate, IncrementUsage,
Commit, in the source's order, with the deferred rollback on every non-commit
exit. -/
def runUsageTx (m : CouponMeta) (e : CallEnv) (count : ℤ) : TxOutcome × TxFate :=
  if ¬ e.beginOk then (.errBegin, .neverOpened)
  else if ¬ e.lockOk then (.errLock, .rolledBack)
  else if m.usageType = "one_time" ∧ 1 ≤ count then (.alreadyUsed, .rolledBack)
  else if 0 < m.maxUsagePerUser ∧ m.maxUsagePerUser ≤ count then
    (.limitReached, .rolledBack)
  else if ¬ e.incrementOk then (.errIncrement, .rolledBack)
  else if ¬ e.commitOk then (.errCommit, .rolledBack)
  else (.accepted, .committed)

/-- Response message produced for each transaction outcome, as in the source:
I/O failures map to internal_error, the two business gates to their reason
codes, and the accepted path to coupon_applied. -/
def txMessage : TxOutcome → String
  | .errBegin => "internal_error"
  | .errLock => "internal_error"
  | .alreadyUsed => "coupon_already_used"
  | .limitReached => "usage_limit_reached"
  | .errIncrement => "internal_error"
  | .errCommit => "internal_error"
  | .accepted => "coupon_applied"

/-- Stored `usage_count` after the transaction: the `UPDATE ... usage_count =
usage_count + 1` of IncrementUsage becomes visible exactly when the
transaction commits; on rollback (or if never opened) the row is unchanged. -/
def storedAfter (m : CouponMeta) (e : CallEnv) (count : ℤ) : ℤ :=
  match (runUsageTx m e count).2 with
  | .committed => count + 1
  | _ => count

/-- Validity-window rejection condition: fires only when BOTH `validFrom`
and `validTo` are set, and `now.Before(validFrom) || now.After(validTo)`. -/
def windowRejects (m : CouponMeta) (now : ℤ) : Bool :=
  match m.validFrom, m.validTo with
  | some vf, some vt => now < vf || vt < now
  | _, _ => false

/-- One full ValidateCoupon call after a successful metadata lookup, given the
current time `now`, the call environment `e` and the committed `usage_count`
`count` for this (couponId, userId) key; returns the response and the
committed count after the call. Gate order follows the source: expiry,
minimum order value, validity window, discount evaluation (with its
cancellation exit), then the usage transaction. -/
def validateCoupon (m : CouponMeta) (req : ValidationRequest) (now : ℤ)
    (e : CallEnv) (count : ℤ) : ValidationResponse × ℤ :=
  if m.expiryDate < now then
    (⟨false, 0, "coupon_expired"⟩, count)
  else if req.orderTotal < m.minOrderValue then
    (⟨false, 0, "min_order_value_not_met"⟩, count)
  else if windowRejects m now then
    (⟨false, 0, "not_in_valid_window"⟩, count)
  else if e.evalCancelled then
    (⟨false, 0, "timeout_during_item_checks"⟩, count)
  else
    let out := (runUsageTx m e count).1
    if out = .accepted then
      (⟨true, finalDiscount m (totalItemsDiscount m req.cartItems) req.orderTotal,
        "coupon_applied"⟩, storedAfter m e count)
    else
      (⟨false, 0, txMessage out⟩, storedAfter m e count)

/-- One call of a trace: a request, its time, and its environment. -/
structure CallCtx where
  req : ValidationRequest
  now : ℤ
  env : CallEnv
  deriving Repr, DecidableEq

/-- Committed `usage_count` after running a sequence of ValidateCoupon calls
for one (couponId, userId) key, starting from `count`. -/
def runTrace (m : CouponMeta) (ctxs : List CallCtx) (count : ℤ) : ℤ :=
  match ctxs with
  | [] => count
  | c :: rest => runTrace m rest (validateCoupon m c.req c.now c.env count).2

/-- Number of calls in the trace whose response has `IsValid = true`. -/
def acceptCount (m : CouponMeta) (ctxs : List CallCtx) (count : ℤ) : ℕ :=
  match ctxs with
  | [] => 0
  | c :: rest =>
    (if (validateCoupon m c.req c.now c.env count).1.isValid then 1 else 0)
      + acceptCount m rest (validateCoupon m c.req c.now c.env count).2

/-- A call environment in which every fallible step succeeds. -/
def envAllOk : CallEnv := ⟨false, true, true, true, true⟩

theorem runUsageTx_accepted_iff_committed (m : CouponMeta) (e : CallEnv)
    (count : ℤ) :
    (runUsageTx m e count).1 = .accepted ↔
      (runUsageTx m e count).2 = .committed := by
  unfold runUsageTx
  repeat' split
  all_goals simp

theorem runUsageTx_accepted_gates (m : CouponMeta) (e : CallEnv) (count : ℤ)
    (h : (runUsageTx m e count).1 = .accepted) :
    ¬ (m.usageType = "one_time" ∧ 1 ≤ count) ∧
      ¬ (0 < m.maxUsagePerUser ∧ m.maxUsagePerUser ≤ count) := by
  unfold runUsageTx at h
  repeat' split at h
  all_goals simp_all

theorem storedAfter_of_accepted (m : CouponMeta) (e : CallEnv) (count : ℤ)
    (h : (runUsageTx m e count).1 = .accepted) :
    storedAfter m e count = count + 1 := by
  unfold storedAfter
  rw [(runUsageTx_accepted_iff_committed m e count).mp h]

theorem storedAfter_of_not_accepted (m : CouponMeta) (e : CallEnv) (count : ℤ)
    (h : (runUsageTx m e count).1 ≠ .accepted) :
    storedAfter m e count = count := by
  unfold storedAfter
  have h2 : (runUsageTx m e count).2 ≠ .committed := fun hc =>
    h ((runUsageTx_accepted_iff_committed m e count).mpr hc)
  cases hf : (runUsageTx m e count).2 <;> simp_all

theorem validateCoupon_step (m : CouponMeta) (req : ValidationRequest)
    (now : ℤ) (e : CallEnv) (count : ℤ) :
    ((validateCoupon m req now e count).1.isValid = true ∧
        (validateCoupon m req now e count).2 = count + 1) ∨
      ((validateCoupon m req now e count).1.isValid = false ∧
        (validateCoupon m req now e count).2 = count) := by
  unfold validateCoupon
  by_cases h1 : m.expiryDate < now
  · simp [h1]
  by_cases h2 : req.orderTotal < m.minOrderValue
  · simp [h1, h2]
  by_cases h3 : windowRejects m now = true
  · simp [h1, h2, h3]
  by_cases h4 : e.evalCancelled = true
  · simp [h1, h2, h3, h4]
  by_cases h5 : (runUsageTx m e count).1 = .accepted
  · simp [h1, h2, h3, h4, h5, storedAfter_of_accepted m e count h5]
  · simp [h1, h2, h3, h4, h5, storedAfter_of_not_accepted m e count h5]

theorem validateCoupon_accept_bound (m : CouponMeta) (req : ValidationRequest)
    (now : ℤ) (e : CallEnv) (count : ℤ)
    (h : (validateCoupon m req now e count).1.isValid = true) :
    ¬ (m.usageType = "one_time" ∧ 1 ≤ count) ∧
      ¬ (0 < m.maxUsagePerUser ∧ m.maxUsagePerUser ≤ count) := by
  unfold validateCoupon at h
  by_cases h5 : (runUsageTx m e count).1 = .accepted
  · exact runUsageTx_accepted_gates m e count h5
  · repeat' split at h
    all_goals simp_all

theorem runTrace_eq_acceptCount (m : CouponMeta) (ctxs : List CallCtx)
    (count : ℤ) :
    runTrace m ctxs count = count + (acceptCount m ctxs count : ℤ) := by
  induction ctxs generalizing count with
  | nil => simp [runTrace, acceptCount]
  | cons c rest ih =>
    unfold runTrace acceptCount
    rcases validateCoupon_step m c.req c.now c.env count with ⟨hv, hc⟩ | ⟨hv, hc⟩ <;>
      simp [hv, hc, ih]
    ring

theorem runTrace_le_max (m : CouponMeta) (ctxs : List CallCtx) (count : ℤ)
    (hmax : 0 < m.maxUsagePerUser) (hle : count ≤ m.maxUsagePerUser) :
    runTrace m ctxs count ≤ m.maxUsagePerUser := by
  induction ctxs generalizing count with
  | nil => simpa [runTrace] using hle
  | cons c rest ih =>
    unfold runTrace
    rcases validateCoupon_step m c.req c.now c.env count with ⟨hv, hc⟩ | ⟨hv, hc⟩
    · have hg := (validateCoupon_accept_bound m c.req c.now c.env count hv).2
      have : count < m.maxUsagePerUser := by
        by_contra hcon
        exact hg ⟨hmax, le_of_not_lt hcon⟩
      exact ih _ (by omega)
    · exact ih _ (by omega)

theorem runTrace_le_one_of_one_time (m : CouponMeta) (ctxs : List CallCtx)
    (count : ℤ) (hone : m.usageType = "one_time") (hle : count ≤ 1) :
    runTrace m ctxs count ≤ 1 := by
  induction ctxs generalizing count with
  | nil => simpa [runTrace] using hle
  | cons c rest ih =>
    unfold runTrace
    rcases validateCoupon_step m c.req c.now c.env count with ⟨hv, hc⟩ | ⟨hv, hc⟩
    · have hg := (validateCoupon_accept_bound m c.req c.now c.env count hv).1
      have : count ≤ 0 := by
        by_contra hcon
        exact hg ⟨hone, by omega⟩
      exact ih _ (by omega)
    · exact ih _ (by omega)

/-- A multi-use inventory/percentage coupon with no validity window and no
item or category restriction, expiring at instant 1000, limit 2 per user. -/
def mExp : CouponMeta :=
  { metaId := 1, couponCode := "SAVE10", expiryDate := 1000,
    usageType := "multi_use", minOrderValue := 0, validFrom := none,
    validTo := none, discountType := "percentage", discountValue := 10,
    maxUsagePerUser := 2, targetType := "inventory",
    applicableItems := [], applicableCategories := [] }

/-- A one_time variant of `mExp`. -/
def mOneTimeFix : CouponMeta := { mExp with usageType := "one_time" }

/-- A request with an empty cart. -/
def reqEmpty : ValidationRequest :=
  { userId := "u1", couponCode := "SAVE10", cartItems := [], orderTotal := 500 }

/-- A call context running `reqEmpty` at instant 500 with every step
succeeding. -/
def cAll : CallCtx := { req := reqEmpty, now := 500, env := envAllOk }

/-- C1: for every (couponId, userId) pair, across any sequence of
ValidateCoupon calls, the committed usageCount is non-decreasing, increases by
exactly 1 on each call that returns IsValid=true, and the number of accepting
calls never exceeds maxUsagePerUser when maxUsagePerUser > 0, and never
exceeds 1 when usageType = one_time. -/
theorem C1_usage_invariant (m : CouponMeta) (ctxs : List CallCtx) :
    (∀ (c : CallCtx) (count : ℤ),
        count ≤ (validateCoupon m c.req c.now c.env count).2) ∧
    (∀ (c : CallCtx) (count : ℤ),
        (validateCoupon m c.req c.now c.env count).1.isValid = true →
        (validateCoupon m c.req c.now c.env count).2 = count + 1) ∧
    (∀ (c : CallCtx) (count : ℤ),
        (validateCoupon m c.req c.now c.env count).1.isValid = false →
        (validateCoupon m c.req c.now c.env count).2 = count) ∧
    (0 < m.maxUsagePerUser →
        (acceptCount m ctxs 0 : ℤ) ≤ m.maxUsagePerUser) ∧
    (m.usageType = "one_time" → acceptCount m ctxs 0 ≤ 1) := by
  refine ⟨?_, ?_, ?_, ?_, ?_⟩
  · intro c count
    rcases validateCoupon_step m c.req c.now c.env count with ⟨_, hc⟩ | ⟨_, hc⟩ <;>
      omega
  · intro c count hv
    rcases validateCoupon_step m c.req c.now c.env count with ⟨_, hc⟩ | ⟨hv2, _⟩
    · exact hc
    · simp [hv] at hv2
  · intro c count hv
    rcases validateCoupon_step m c.req c.now c.env count with ⟨hv2, _⟩ | ⟨_, hc⟩
    · simp [hv] at hv2
    · exact hc
  · intro hmax
    have h1 := runTrace_eq_acceptCount m ctxs 0
    have h2 := runTrace_le_max m ctxs 0 hmax (by omega)
    omega
  · intro hone
    have h1 := runTrace_eq_acceptCount m ctxs 0
    have h2 := runTrace_le_one_of_one_time m ctxs 0 hone (by omega)
    omega

theorem C1_usage_invariant_witness :
    acceptCount mOneTimeFix [cAll, cAll, cAll] 0 ≤ 1 ∧
      (acceptCount mExp [cAll, cAll, cAll] 0 : ℤ) ≤ mExp.maxUsagePerUser := by
  constructor
  · exact (C1_usage_invariant mOneTimeFix [cAll, cAll, cAll]).2.2.2.2 rfl
  · exact (C1_usage_invariant mExp [cAll, cAll, cAll]).2.2.2.1 (by decide)

/-- C2: the usage transaction commits only on the accepted path; on every
other exit after the transaction is opened (business rejections, I/O errors
from lock/increment/commit, cancellation surfacing as such an error) the
transaction is rolled back, leaving the stored usageCount unchanged. -/
theorem C2_rollback (m : CouponMeta) (e : CallEnv) (count : ℤ)
    (hb : e.beginOk = true) :
    ((runUsageTx m e count).2 = .committed ↔
        (runUsageTx m e count).1 = .accepted) ∧
    ((runUsageTx m e count).1 ≠ .accepted →
        (runUsageTx m e count).2 = .rolledBack ∧
          storedAfter m e count = count) ∧
    ((runUsageTx m e count).1 = .accepted →
        storedAfter m e count = count + 1) := by
  refine ⟨(runUsageTx_accepted_iff_committed m e count).symm, ?_,
    storedAfter_of_accepted m e count⟩
  intro hna
  refine ⟨?_, storedAfter_of_not_accepted m e count hna⟩
  unfold runUsageTx at hna ⊢
  simp only [hb] at hna ⊢
  repeat' split
  all_goals simp_all

/-- An environment whose commit step fails. -/
def envCommitFails : CallEnv := { envAllOk with commitOk := false }

theorem C2_rollback_witness :
    (runUsageTx mExp envCommitFails 0).2 = .rolledBack ∧
      storedAfter mExp envCommitFails 0 = 0 :=
  (C2_rollback mExp envCommitFails 0 rfl).2.1 (by decide)

theorem txMessage_ne_static (o : TxOutcome) :
    txMessage o ≠ "coupon_expired" ∧ txMessage o ≠ "min_order_value_not_met" ∧
      txMessage o ≠ "not_in_valid_window" ∧
      txMessage o ≠ "timeout_during_item_checks" := by
  cases o <;> simp [txMessage]

theorem windowRejects_iff (m : CouponMeta) (now : ℤ) :
    windowRejects m now = true ↔
      ∃ vf vt, m.validFrom = some vf ∧ m.validTo = some vt ∧
        ¬ (vf ≤ now ∧ now ≤ vt) := by
  unfold windowRejects
  cases hvf : m.validFrom <;> cases hvt : m.validTo <;> simp
  omega

theorem message_eq_expired_iff (m : CouponMeta) (req : ValidationRequest)
    (now : ℤ) (e : CallEnv) (count : ℤ) :
    (validateCoupon m req now e count).1.message = "coupon_expired" ↔
      m.expiryDate < now := by
  unfold validateCoupon
  by_cases h1 : m.expiryDate < now
  · simp [h1]
  by_cases h2 : req.orderTotal < m.minOrderValue
  · simp [h1, h2]
  by_cases h3 : windowRejects m now = true
  · simp [h1, h2, h3]
  by_cases h4 : e.evalCancelled = true
  · simp [h1, h2, h3, h4]
  by_cases h5 : (runUsageTx m e count).1 = .accepted
  · simp [h1, h2, h3, h4, h5]
  · simp [h1, h2, h3, h4, h5, (txMessage_ne_static (runUsageTx m e count).1).1]

theorem message_eq_min_iff (m : CouponMeta) (req : ValidationRequest)
    (now : ℤ) (e : CallEnv) (count : ℤ) :
    (validateCoupon m req now e count).1.message = "min_order_value_not_met" ↔
      ¬ m.expiryDate < now ∧ req.orderTotal < m.minOrderValue := by
  unfold validateCoupon
  by_cases h1 : m.expiryDate < now
  · simp [h1]
  by_cases h2 : req.orderTotal < m.minOrderValue
  · simp [h1, h2]
  by_cases h3 : windowRejects m now = true
  · simp [h1, h2, h3]
  by_cases h4 : e.evalCancelled = true
  · simp [h1, h2, h3, h4]
  by_cases h5 : (runUsageTx m e count).1 = .accepted
  · simp [h1, h2, h3, h4, h5]
  · simp [h1, h2, h3, h4, h5,
      (txMessage_ne_static (runUsageTx m e count).1).2.1]

theorem message_eq_window_iff (m : CouponMeta) (req : ValidationRequest)
    (now : ℤ) (e : CallEnv) (count : ℤ) :
    (validateCoupon m req now e count).1.message = "not_in_valid_window" ↔
      ¬ m.expiryDate < now ∧ ¬ req.orderTotal < m.minOrderValue ∧
        ∃ vf vt, m.validFrom = some vf ∧ m.validTo = some vt ∧
          ¬ (vf ≤ now ∧ now ≤ vt) := by
  rw [← windowRejects_iff]
  unfold validateCoupon
  by_cases h1 : m.expiryDate < now
  · simp [h1]
  by_cases h2 : req.orderTotal < m.minOrderValue
  · simp [h1, h2]
  by_cases h3 : windowRejects m now = true
  · simp [h1, h2, h3]
  by_cases h4 : e.evalCancelled = true
  · simp [h1, h2, h3, h4]
  by_cases h5 : (runUsageTx m e count).1 = .accepted
  · simp [h1, h2, h3, h4, h5]
  · simp [h1, h2, h3, h4, h5,
      (txMessage_ne_static (runUsageTx m e count).1).2.2.1]

/-- C5: after metadata lookup the static checks run in order — reject with
coupon_expired when now > expiryDate; otherwise min_order_value_not_met when
minOrderValue > orderTotal; otherwise not_in_valid_window when both window
bounds are set and now lies outside the inclusive interval
[validFrom, validTo] (one-sided windows never reject; boundary instants
pass). -/
theorem C5_static_checks (m : CouponMeta) (req : ValidationRequest)
    (now : ℤ) (e : CallEnv) (count : ℤ) :
    ((validateCoupon m req now e count).1.message = "coupon_expired" ↔
        m.expiryDate < now) ∧
    ((validateCoupon m req now e count).1.message = "min_order_value_not_met" ↔
        ¬ m.expiryDate < now ∧ req.orderTotal < m.minOrderValue) ∧
    ((validateCoupon m req now e count).1.message = "not_in_valid_window" ↔
        ¬ m.expiryDate < now ∧ ¬ req.orderTotal < m.minOrderValue ∧
          ∃ vf vt, m.validFrom = some vf ∧ m.validTo = some vt ∧
            ¬ (vf ≤ now ∧ now ≤ vt)) :=
  ⟨message_eq_expired_iff m req now e count,
   message_eq_min_iff m req now e count,
   message_eq_window_iff m req now e count⟩

/-- C6 counterexample: the claim says a coupon whose expiryDate equals `now`
exactly is rejected with coupon_expired; on the code the expiry gate is
`expiryDate.Before(now)`, which is strict, so at `now = expiryDate = 1000`
this coupon is not rejected at all — it is accepted. -/
theorem C6_counterexample :
    mExp.expiryDate = 1000 ∧
      (validateCoupon mExp reqEmpty 1000 envAllOk 0).1.message ≠
        "coupon_expired" ∧
      (validateCoupon mExp reqEmpty 1000 envAllOk 0).1.isValid = true := by
  refine ⟨rfl, ?_, ?_⟩ <;> decide

/-- C6 (amended): when now equals expiryDate exactly, ValidateCoupon does NOT
reject with coupon_expired — the boundary instant is still valid; the expiry
gate fires only when now is strictly after expiryDate. -/
theorem C6_expiry_boundary (m : CouponMeta) (req : ValidationRequest)
    (now : ℤ) (e : CallEnv) (count : ℤ) (hnow : now = m.expiryDate) :
    (validateCoupon m req now e count).1.message ≠ "coupon_expired" := by
  intro h
  rw [message_eq_expired_iff] at h
  omega

theorem C6_expiry_boundary_witness :
    (validateCoupon mExp reqEmpty mExp.expiryDate envAllOk 0).1.message ≠
      "coupon_expired" :=
  C6_expiry_boundary mExp reqEmpty mExp.expiryDate envAllOk 0 rfl

theorem runUsageTx_accepts_of (m : CouponMeta) (e : CallEnv) (count : ℤ)
    (hb : e.beginOk = true) (hl : e.lockOk = true) (hi : e.incrementOk = true)
    (hc : e.commitOk = true)
    (hone : ¬ (m.usageType = "one_time" ∧ 1 ≤ count))
    (hlim : ¬ (0 < m.maxUsagePerUser ∧ m.maxUsagePerUser ≤ count)) :
    runUsageTx m e count = (.accepted, .committed) := by
  unfold runUsageTx
  simp [hb, hl, hi, hc, hone, hlim]

/-- C4: after getAndLock returns `count`, the one_time gate rejects with
coupon_already_used iff usageType = one_time and count ≥ 1 (checked first);
otherwise the limit gate rejects with usage_limit_reached iff
maxUsagePerUser > 0 and count ≥ maxUsagePerUser; otherwise the call
increments and commits; with maxUsagePerUser = 0 and usageType ≠ one_time
neither gate ever rejects. -/
theorem C4_usage_gates (m : CouponMeta) (e : CallEnv) (count : ℤ)
    (hb : e.beginOk = true) (hl : e.lockOk = true) :
    ((runUsageTx m e count).1 = .alreadyUsed ↔
        m.usageType = "one_time" ∧ 1 ≤ count) ∧
    ((runUsageTx m e count).1 = .limitReached ↔
        ¬ (m.usageType = "one_time" ∧ 1 ≤ count) ∧
          0 < m.maxUsagePerUser ∧ m.maxUsagePerUser ≤ count) ∧
    (¬ (m.usageType = "one_time" ∧ 1 ≤ count) →
        ¬ (0 < m.maxUsagePerUser ∧ m.maxUsagePerUser ≤ count) →
        e.incrementOk = true → e.commitOk = true →
        runUsageTx m e count = (.accepted, .committed)) ∧
    (m.maxUsagePerUser = 0 → m.usageType ≠ "one_time" →
        (runUsageTx m e count).1 ≠ .alreadyUsed ∧
          (runUsageTx m e count).1 ≠ .limitReached) := by
  refine ⟨?_, ?_, fun h1 h2 hi hc =>
    runUsageTx_accepts_of m e count hb hl hi hc h1 h2, ?_⟩
  · unfold runUsageTx
    simp only [hb, hl]
    repeat' split
    all_goals simp_all
  · unfold runUsageTx
    simp only [hb, hl]
    repeat' split
    all_goals simp_all
  · intro hz hne
    unfold runUsageTx
    simp only [hb, hl]
    repeat' split
    all_goals simp_all

theorem C4_usage_gates_witness :
    (runUsageTx mOneTimeFix envAllOk 1).1 = .alreadyUsed ∧
      runUsageTx mExp envAllOk 0 = (.accepted, .committed) :=
  ⟨(C4_usage_gates mOneTimeFix envAllOk 1 rfl rfl).1.mpr ⟨rfl, by decide⟩,
   (C4_usage_gates mExp envAllOk 0 rfl rfl).2.2.1 (by decide) (by decide)
     rfl rfl⟩

/-- C7: an item is applicable iff both restriction sets are empty, or the
item's id is in the applicable-items set, or its category is in the
applicable-categories set; a non-applicable item contributes 0 to the item
discount total. -/
theorem C7_applicability (m : CouponMeta) (it : CartItem) :
    (itemApplies m it = true ↔
        (m.applicableItems = [] ∧ m.applicableCategories = []) ∨
          it.id ∈ m.applicableItems ∨
          it.category ∈ m.applicableCategories) ∧
    (itemApplies m it = false → itemDiscount m it = 0) := by
  constructor
  · unfold itemApplies
    simp [List.isEmpty_iff, or_assoc]
  · intro h
    unfold itemDiscount
    simp [h]

/-- A coupon restricted to item "itemA" and category "catA". -/
def mRestr : CouponMeta :=
  { mExp with applicableItems := ["itemA"], applicableCategories := ["catA"] }

/-- A cart item matching neither restriction of `mRestr`. -/
def itemB : CartItem := { id := "itemB", category := "catB", price := 100, qty := 2 }

theorem C7_applicability_witness : itemDiscount mRestr itemB = 0 :=
  (C7_applicability mRestr itemB).2 (by decide)

/-- C8 counterexample: the claim's formula min(4, max(1, len)) gives 1 worker
for an empty cart, but the code's `if len > 0 && len < 4` guard leaves the
initial value 4 untouched when the cart is empty. -/
theorem C8_counterexample : ¬ workerCount 0 = min 4 (max 1 0) := by decide

/-- C8 (amended): the number of discount workers equals len(cartItems) for
carts of 1–3 items and 4 for every other cart — i.e. min(4, len) for
non-empty carts, but 4 (not 1) for an empty cart. -/
theorem C8_worker_count (n : ℕ) :
    workerCount n = if n = 0 then 4 else min 4 n := by
  simp only [workerCount]
  repeat' split
  all_goals omega

theorem validateCoupon_accepted_discount (m : CouponMeta)
    (req : ValidationRequest) (now : ℤ) (e : CallEnv) (count : ℤ)
    (hacc : (validateCoupon m req now e count).1.isValid = true) :
    (validateCoupon m req now e count).1.discount =
      finalDiscount m (totalItemsDiscount m req.cartItems) req.orderTotal := by
  unfold validateCoupon at hacc ⊢
  by_cases h1 : m.expiryDate < now
  · simp [h1] at hacc
  by_cases h2 : req.orderTotal < m.minOrderValue
  · simp [h1, h2] at hacc
  by_cases h3 : windowRejects m now = true
  · simp [h1, h2, h3] at hacc
  by_cases h4 : e.evalCancelled = true
  · simp [h1, h2, h3, h4] at hacc
  by_cases h5 : (runUsageTx m e count).1 = .accepted
  · simp [h1, h2, h3, h4, h5]
  · simp [h1, h2, h3, h4, h5] at hacc

theorem totalItemsDiscount_filter (m : CouponMeta) (items : List CartItem)
    (ht : m.targetType = "inventory") (hd : m.discountType = "percentage") :
    totalItemsDiscount m items =
      ((items.filter (fun it => itemApplies m it)).map
        (fun it => (it.qty : ℚ) * it.price * (m.discountValue / 100))).sum := by
  induction items with
  | nil => simp [totalItemsDiscount]
  | cons it rest ih =>
    unfold totalItemsDiscount at ih ⊢
    simp only [List.map_cons, List.sum_cons, List.filter_cons]
    by_cases ha : itemApplies m it = true
    · simp [ha, ih, itemDiscount, ht, hd]
    · simp [ha, ih, itemDiscount, ht, hd]

theorem totalItemsDiscount_eq_zero (m : CouponMeta) (items : List CartItem)
    (h : ∀ it ∈ items, itemApplies m it = false) :
    totalItemsDiscount m items = 0 := by
  induction items with
  | nil => simp [totalItemsDiscount]
  | cons it rest ih =>
    have hit := h it (List.mem_cons_self it rest)
    have hrest : ∀ x ∈ rest, itemApplies m x = false := fun x hx =>
      h x (List.mem_cons_of_mem it hx)
    unfold totalItemsDiscount at ih ⊢
    simp [itemDiscount, hit, ih hrest]

/-- C3: on acceptance the returned discount equals the sum over applicable
cart items of qty × unitPrice × discountValue/100 for inventory/percentage
coupons; discountValue once per order for inventory/flat; orderTotal ×
discountValue/100 for charges/percentage; and discountValue for
charges/flat. -/
theorem C3_discount (m : CouponMeta) (req : ValidationRequest) (now : ℤ)
    (e : CallEnv) (count : ℤ)
    (hacc : (validateCoupon m req now e count).1.isValid = true) :
    (m.targetType = "inventory" → m.discountType = "percentage" →
        (validateCoupon m req now e count).1.discount =
          ((req.cartItems.filter (fun it => itemApplies m it)).map
            (fun it => (it.qty : ℚ) * it.price * (m.discountValue / 100))).sum) ∧
    (m.targetType = "inventory" → m.discountType = "flat" →
        (validateCoupon m req now e count).1.discount = m.discountValue) ∧
    (m.targetType = "charges" → m.discountType = "percentage" →
        (validateCoupon m req now e count).1.discount =
          req.orderTotal * (m.discountValue / 100)) ∧
    (m.targetType = "charges" → m.discountType = "flat" →
        (validateCoupon m req now e count).1.discount = m.discountValue) := by
  have hd := validateCoupon_accepted_discount m req now e count hacc
  refine ⟨fun ht hp => ?_, fun ht hp => ?_, fun ht hp => ?_, fun ht hp => ?_⟩
  · rw [hd, totalItemsDiscount_filter m req.cartItems ht hp]
    simp [finalDiscount, ht, hp]
  · rw [hd]
    simp [finalDiscount, ht, hp]
  · rw [hd]
    simp [finalDiscount, ht, hp]
  · rw [hd]
    simp [finalDiscount, ht, hp]

/-- A one-item cart holding `itemB` (price 100, qty 2). -/
def reqOne : ValidationRequest :=
  { userId := "u1", couponCode := "SAVE10", cartItems := [itemB],
    orderTotal := 500 }

/-- A charges/flat variant of `mExp` with discountValue 50. -/
def mChargesFlat : CouponMeta :=
  { mExp with
      targetType := "charges"
      discountType := "flat"
      discountValue := 50 }

theorem C3_discount_witness :
    (validateCoupon mExp reqOne 500 envAllOk 0).1.discount = 20 ∧
      (validateCoupon mChargesFlat reqOne 500 envAllOk 0).1.discount = 50 := by
  constructor
  · have h := (C3_discount mExp reqOne 500 envAllOk 0 (by decide)).1 rfl rfl
    rw [h]
    norm_num [reqOne, itemB, itemApplies, mExp]
  · have h :=
      (C3_discount mChargesFlat reqOne 500 envAllOk 0 (by decide)).2.2.2 rfl rfl
    rw [h]
    rfl

/-- C10: for an inventory/percentage coupon and a cart with no applicable
item (including the empty cart), when every other gate passes, ValidateCoupon
still consumes one usage unit and returns IsValid = true, Discount = 0 and
message coupon_applied. -/
theorem C10_vacuous_accept (m : CouponMeta) (req : ValidationRequest)
    (now : ℤ) (e : CallEnv) (count : ℤ)
    (hinv : m.targetType = "inventory") (hpct : m.discountType = "percentage")
    (hnoapp : ∀ it ∈ req.cartItems, itemApplies m it = false)
    (hexp : ¬ m.expiryDate < now) (hmin : ¬ req.orderTotal < m.minOrderValue)
    (hwin : windowRejects m now = false) (hcancel : e.evalCancelled = false)
    (hb : e.beginOk = true) (hl : e.lockOk = true) (hi : e.incrementOk = true)
    (hcmt : e.commitOk = true)
    (hone : ¬ (m.usageType = "one_time" ∧ 1 ≤ count))
    (hlim : ¬ (0 < m.maxUsagePerUser ∧ m.maxUsagePerUser ≤ count)) :
    validateCoupon m req now e count =
      ({ isValid := true, discount := 0, message := "coupon_applied" },
        count + 1) := by
  have htx := runUsageTx_accepts_of m e count hb hl hi hcmt hone hlim
  have hzero := totalItemsDiscount_eq_zero m req.cartItems hnoapp
  have hfd : finalDiscount m (totalItemsDiscount m req.cartItems)
      req.orderTotal = 0 := by
    rw [hzero]
    simp [finalDiscount, hinv, hpct]
  unfold validateCoupon
  simp [hexp, hmin, hwin, hcancel, htx, storedAfter, hfd]

theorem C10_vacuous_accept_witness :
    validateCoupon mRestr reqOne 500 envAllOk 0 =
      ({ isValid := true, discount := 0, message := "coupon_applied" }, 1) :=
  C10_vacuous_accept mRestr reqOne 500 envAllOk 0 rfl rfl (by decide)
    (by decide) (by decide) (by decide) rfl rfl rfl rfl rfl (by decide)
    (by decide)

end CouponService
